import Mathlib

/-!
Shallow embedding of `src/python_cloudevents_function.py`: an Azure Functions
app that receives Blob-Created events (CloudEvents), extracts blob metadata,
and dispatches to content-type stubs.  Python dictionaries holding parsed JSON
are modelled by an inductive `Json` type, Python truthiness by `Json.isTruthy`,
`dict.get(k, default)` by `dictGet`, and a raised-then-caught exception by
`Option`/`Except`-style results.  Handlers additionally return a trace of the
pipeline components they invoked, so that "the extractor ran" and "exactly one
stub was called" are statable.
-/

/-- A parsed JSON value, as the Python `json.loads` produces it: `None`, booleans,
numbers (integers suffice for the claims), strings, lists and dicts. -/
inductive Json where
  | null : Json
  | bool : Bool → Json
  | num : Int → Json
  | str : String → Json
  | arr : List Json → Json
  | obj : List (String × Json) → Json
deriving Repr

/-- Python truthiness (`if x:`) on a JSON value: `None`, `False`, `0`, `""`,
`[]` and `\x7b\x7d` are falsy, everything else truthy. -/
def Json.isTruthy : Json → Bool
  | .null => false
  | .bool b => b
  | .num n => n != 0
  | .str s => !(s == "")
  | .arr xs => !xs.isEmpty
  | .obj kvs => !kvs.isEmpty

/-- Python `==` between a JSON value and a string literal: equal exactly when
the value is that string (values of other types compare unequal, no error). -/
def Json.eqStr : Json → String → Bool
  | .str s, t => s == t
  | _, _ => false

/-- Python `d.get(k, default)` on a dict: the stored value when the key is
present, the default otherwise.  Defaulting happens only on absence — a present
value of any type is returned as is. -/
def dictGet (kvs : List (String × Json)) (k : String) (default : Json) : Json :=
  match kvs.lookup k with
  | some v => v
  | none => default

/-- `swChars s p` is true when `p` is an initial run of `s` (character lists). -/
def swChars : List Char → List Char → Bool
  | _, [] => true
  | [], _ :: _ => false
  | c :: cs, d :: ds => c == d && swChars cs ds

/-- Python `s.startswith(p)`, on the character lists of the two strings. -/
def pyStartsWith (s p : String) : Bool := swChars s.data p.data

/-- Split a character list on a separator character; like the Python
`str.split(sep)`, the result always has at least one part and adjacent
separators give empty parts. -/
def splitChars (sep : Char) : List Char → List (List Char)
  | [] => [[]]
  | c :: cs =>
    let rest := splitChars sep cs
    if c == sep then [] :: rest
    else match rest with
      | [] => [[c]]
      | p :: ps => (c :: p) :: ps

/-- Python `s.split(sep)` for a one-character separator: `pySplit "" sep = [""]`,
`pySplit "a/b" sep = ["a", "b"]`, `pySplit "/" sep = ["", ""]`. -/
def pySplit (s : String) (sep : Char) : List String :=
  (splitChars sep s.data).map (fun cs => String.mk cs)

/-- The dict built by `extract_blob_info` (lines 65–80).  `blob_name` and
`container_name` are `Option` because the Python code sets those keys only
inside `if blob_info[..url..]:` (truthy url); `none` models the key being absent from the
dict.  The other nine fields hold whatever JSON value `event_data.get` returned
(no coercion is performed on any of them). -/
structure BlobInfo where
  url : Json
  api : Json
  client_request_id : Json
  request_id : Json
  etag : Json
  content_type : Json
  content_length : Json
  blob_type : Json
  sequencer : Json
  blob_name : Option String
  container_name : Option String
deriving Repr

/-- `extract_blob_info` (lines 54–86).  Returns `none` for the Python `return
\x7b\x7d` taken when the `try` body raises: this happens when `event_data` is not a
dict (`.get` raises `AttributeError`), when a truthy `url` is not a string
(`.split` raises `AttributeError`), and when the url split on `/` has fewer than
two parts (`[-2]` raises `IndexError`).  The split is `pySplit`, which agrees
with Python on every case used here (always at least one part; `""` gives
`[""]`).  Indexing `[-1]`/`[-2]` is head of the reversed list. -/
def extract_blob_info (event_data : Json) : Option BlobInfo :=
  match event_data with
  | .obj kvs =>
    let base : BlobInfo :=
      { url := dictGet kvs "url" (.str "")
        api := dictGet kvs "api" (.str "")
        client_request_id := dictGet kvs "clientRequestId" (.str "")
        request_id := dictGet kvs "requestId" (.str "")
        etag := dictGet kvs "eTag" (.str "")
        content_type := dictGet kvs "contentType" (.str "")
        content_length := dictGet kvs "contentLength" (.num 0)
        blob_type := dictGet kvs "blobType" (.str "")
        sequencer := dictGet kvs "sequencer" (.str "")
        blob_name := none
        container_name := none }
    if base.url.isTruthy then
      match base.url with
      | .str s =>
        match (pySplit s '/').reverse with
        | last :: secondLast :: _ =>
          some { base with blob_name := some last, container_name := some secondLast }
        | _ => none
      | _ => none
    else
      some base
  | _ => none

/-- The four no-op processing stubs (lines 118–165). -/
inductive Stub where
  | image : Stub
  | text : Stub
  | json : Stub
  | generic : Stub
deriving Repr, DecidableEq

/-- The `if`/`elif` chain of `process_blob_created` (lines 109–116): branch on
the content type, first match wins. -/
def dispatch (content_type : String) : Stub :=
  if pyStartsWith content_type "image/" then .image
  else if pyStartsWith content_type "text/" then .text
  else if content_type == "application/json" then .json
  else .generic

/-- The lookup `blob_info.get(..content_type.., ....)` inside `process_blob_created`
(line 106): the empty dict (our `none`) yields the default `""`; otherwise the stored
value, whatever its type. -/
def blobInfoContentType : Option BlobInfo → Json
  | none => .str ""
  | some bi => bi.content_type

/-- `process_blob_created` (lines 88–116), returning the list of stubs it
invokes.  When the stored `content_type` is a non-string JSON value,
`content_type.startswith(...)` raises `AttributeError` before any stub runs,
modelled as `.error`; otherwise exactly the dispatched stub is called. -/
def process_blob_created (blob_info : Option BlobInfo) : Except String (List Stub) :=
  match blobInfoContentType blob_info with
  | .str ct => .ok [dispatch ct]
  | _ => .error "AttributeError: startswith on non-string content_type"

/-- One entry of a pipeline trace: the Object-Creation Extractor
(`extract_blob_info`) was invoked, or one of the four stubs was invoked. -/
inductive TraceItem where
  | extractorCall : TraceItem
  | stub : Stub → TraceItem
deriving Repr, DecidableEq

/-- The extraction+dispatch pipeline — `extract_blob_info` followed by
`process_blob_created` — exactly as both handlers run it (lines 45–46 and
250–259).  Returns the trace of component invocations together with the raised
exception when one escapes (`extract_blob_info` catches its own, so the only
escape is the non-string `content_type` inside `process_blob_created`). -/
def run_pipeline (d : Json) : List TraceItem × Option String :=
  match process_blob_created (extract_blob_info d) with
  | .ok stubs => (.extractorCall :: stubs.map .stub, none)
  | .error e => ([.extractorCall], some e)

/-- The platform-constructed `func.EventGridEvent` the push trigger passes to
`blob_created_handler`: metadata attributes plus `data`, the value the
`event.get_json()` accessor returns. -/
structure EventGridEvent where
  id : String
  source : String
  subject : String
  event_type : String
  event_time : String
  data : Json
deriving Repr

/-- `blob_created_handler` (lines 16–52): the push-trigger entry point.  Its
`try`/`except` logs and re-raises, so an exception from processing propagates
to the platform unchanged (`some e` in the second component).  The event type
is read only for logging, never branched on: the pipeline runs whenever
`event.get_json()` is truthy, and a falsy payload only logs a warning. -/
def blob_created_handler (event : EventGridEvent) : List TraceItem × Option String :=
  if event.data.isTruthy then run_pipeline event.data
  else ([], none)

/-- The envelope fields `process_cloudevent_http` extracts (lines 232–238). -/
structure Envelope where
  spec_version : Json
  event_type : Json
  source : Json
  event_id : Json
  subject : Json
  time : Json
  data : Json
deriving Repr

/-- The envelope-field extraction of `process_cloudevent_http` (lines 232–238):
seven `event_data.get` calls.  On a dict it never fails, and each default
(`""`, `"1.0"` for `specversion`, `\x7b\x7d` for `data`) applies only when the key is
absent — a present value of any JSON type is kept as is.  On a non-dict,
`.get` raises `AttributeError`. -/
def parse_envelope (event_data : Json) : Except String Envelope :=
  match event_data with
  | .obj kvs => .ok
      { spec_version := dictGet kvs "specversion" (.str "1.0")
        event_type := dictGet kvs "type" (.str "")
        source := dictGet kvs "source" (.str "")
        event_id := dictGet kvs "id" (.str "")
        subject := dictGet kvs "subject" (.str "")
        time := dictGet kvs "time" (.str "")
        data := dictGet kvs "data" (.obj []) }
  | _ => .error "AttributeError: get on non-dict"

/-- `process_cloudevent_http` (lines 221–261): extract the envelope, then run
the pipeline exactly when the `type` value equals the string
`Microsoft.Storage.BlobCreated` (Python `==`, so a non-string value simply
compares unequal); any other type only logs a warning. -/
def process_cloudevent_http (event_data : Json) : List TraceItem × Option String :=
  match parse_envelope event_data with
  | .error e => ([], some e)
  | .ok env =>
    if env.event_type.eqStr "Microsoft.Storage.BlobCreated" then
      run_pipeline env.data
    else ([], none)

/-- The result of the azure `req.get_json()`, which is `json.loads` of the raw
body: a body that is absent, empty, or not valid JSON makes `json.loads`
raise `ValueError` (`badJson`); otherwise the parsed JSON value. -/
inductive BodyJson where
  | badJson : BodyJson
  | parsed : Json → BodyJson
deriving Repr

/-- An inbound HTTP request as the handlers see it: method, header mapping and
the parse outcome of its body. -/
structure HttpRequest where
  method : String
  headers : List (String × String)
  body : BodyJson
deriving Repr

/-- A `func.HttpResponse`: status code, headers, optional body string. -/
structure HttpResponse where
  status_code : Nat
  headers : List (String × String) := []
  body : Option String := none
deriving Repr

/-- `blob_created_http_handler` (lines 170–219), paired with the pipeline trace
of its POST path.  OPTIONS: `if origin:` is Python truthiness, so the echoing
200 needs the `WebHook-Request-Origin` header present with a non-empty value;
absent or empty gives 400.  POST: `req.get_json()` raising lands in the inner
`except` (500); a falsy parsed body gives 400; an exception out of
`process_cloudevent_http` gives 500; otherwise 200.  Other methods: 405. -/
def blob_created_http_handler (req : HttpRequest) : HttpResponse × List TraceItem :=
  if req.method == "OPTIONS" then
    match req.headers.lookup "WebHook-Request-Origin" with
    | some origin =>
      if !(origin == "") then
        ({ status_code := 200, headers := [("WebHook-Allowed-Origin", origin)] }, [])
      else ({ status_code := 400 }, [])
    | none => ({ status_code := 400 }, [])
  else if req.method == "POST" then
    match req.body with
    | .badJson => ({ status_code := 500 }, [])
    | .parsed j =>
      if !j.isTruthy then ({ status_code := 400 }, [])
      else
        match process_cloudevent_http j with
        | (tr, none) => ({ status_code := 200 }, tr)
        | (tr, some _) => ({ status_code := 500 }, tr)
  else ({ status_code := 405 }, [])

/-- The public attributes of the `azure.functions` package (imported as `func`)
that this app touches.  The azure-functions library exports the function-app
types used here but no `datetime` attribute — `datetime` is a standard-library
module the source never imports — so evaluating `func.datetime` raises
`AttributeError`. -/
def azureFunctionsAttrs : List String :=
  ["FunctionApp", "HttpRequest", "HttpResponse", "AuthLevel", "EventGridEvent"]

/-- Python attribute access `m.name` on a module whose attribute list is
`attrs`: raises `AttributeError` when the name is not among them. -/
def moduleAttr (attrs : List String) (name : String) : Except String Unit :=
  if name ∈ attrs then .ok () else .error ("AttributeError: " ++ name)

/-- The JSON body `health_check` means to serialize (lines 269–273), given the
timestamp string `now`: `json.dumps` output with keys in insertion order. -/
def healthBody (now : String) : String :=
  "\x7b\"status\": \"healthy\", \"timestamp\": \"" ++ now ++ "\", \"version\": \"1.0.0\"\x7d"

/-- `health_check` (lines 264–276).  The handler builds its timestamp with
`func.datetime.utcnow().isoformat()`, which first resolves the attribute
`datetime` on the `azure.functions` module; `now` stands for the ISO-8601
rendering of the current UTC time that call is meant to produce.  Because the
resolution raises, the 200 branch is unreachable as the code stands. -/
def health_check (now : String) (_req : HttpRequest) : Except String HttpResponse :=
  match moduleAttr azureFunctionsAttrs "datetime" with
  | .error e => .error e
  | .ok _ => .ok
      { status_code := 200
        headers := [("Content-Type", "application/json")]
        body := some (healthBody now) }

example : dispatch "image/png" = .image := by decide
example : dispatch "" = .generic := by decide
example : dispatch "application/json" = .json := by decide
example : extract_blob_info (.str "x") = none := by rfl
example : extract_blob_info (.obj [("url", .str "abc")]) = none := by rfl
example :
    (extract_blob_info (.obj [("url", .str "https://a.net/c/f.png")])).map
      (fun bi => (bi.blob_name, bi.container_name)) =
    some (some "f.png", some "c") := by rfl

/-- Whatever data the pipeline is run on, the Object-Creation Extractor is
invoked exactly once per run: the trace is `[extractorCall]` on the exceptional
path and `[extractorCall, stub s]` otherwise. -/
theorem run_pipeline_count (d : Json) :
    (run_pipeline d).1.count TraceItem.extractorCall = 1 := by
  unfold run_pipeline process_blob_created
  cases blobInfoContentType (extract_blob_info d) <;> simp [List.count_cons]

/-- Claim C10: a push-trigger invocation whose event JSON payload is falsy
(absent data gives `None`, or an empty/zero/empty-string value) completes
normally — no exception escapes — and the pipeline trace is empty, so neither
the Object-Creation Extractor nor any stub is invoked. -/
theorem blob_created_handler_falsy_noop (ev : EventGridEvent)
    (h : ev.data.isTruthy = false) :
    blob_created_handler ev = ([], none) := by
  unfold blob_created_handler
  rw [h]
  simp

/-- Claim C10 witness: a push event whose payload is `None` completes with an
empty trace and no exception. -/
theorem blob_created_handler_falsy_noop_witness :
    (Json.null.isTruthy = false) ∧
    blob_created_handler ⟨"id1", "/src", "sub", "Microsoft.Storage.BlobCreated",
      "2024-01-01T00:00:00Z", Json.null⟩ = ([], none) :=
  ⟨by decide, blob_created_handler_falsy_noop _ (by decide)⟩

/-- Claim C9: when a stage of processing raises on the push-trigger path, the
handler re-raises the same exception to the platform instead of swallowing it
(its `except` block logs and re-raises). -/
theorem blob_created_handler_reraises (ev : EventGridEvent) (e : String)
    (htr : ev.data.isTruthy = true)
    (herr : (run_pipeline ev.data).2 = some e) :
    (blob_created_handler ev).2 = some e := by
  unfold blob_created_handler
  rw [htr]
  simpa using herr

/-- Claim C9 witness: a push event whose payload stores a non-string
`contentType` makes `process_blob_created` raise `AttributeError`, and the
handler surfaces exactly that exception. -/
theorem blob_created_handler_reraises_witness :
    (blob_created_handler ⟨"id1", "/src", "sub", "Microsoft.Storage.BlobCreated",
      "2024-01-01T00:00:00Z", Json.obj [("contentType", Json.num 5)]⟩).2 =
    some "AttributeError: startswith on non-string content_type" :=
  blob_created_handler_reraises _ _ (by decide) (by rfl)

/-- Claim C1: contrary to the spec, the health endpoint can never produce its
200 response — evaluating `func.datetime` raises `AttributeError` on every
request, because the `azure.functions` module has no `datetime` attribute. -/
theorem health_check_raises (now : String) (req : HttpRequest) :
    health_check now req = .error "AttributeError: datetime" := by
  rfl

/-- Claim C2 counterexample: an OPTIONS request whose `WebHook-Request-Origin`
header is present with the empty value gets 400, not the 200 echo the claim
requires for every present header — `if origin:` tests truthiness, not
presence. -/
theorem options_empty_origin_cex :
    ([("WebHook-Request-Origin", "")].lookup "WebHook-Request-Origin" = some "") ∧
    (blob_created_http_handler
      ⟨"OPTIONS", [("WebHook-Request-Origin", "")], .badJson⟩).1.status_code = 400 := by
  constructor
  · decide
  · rfl

/-- Claim C2 (amended): on an OPTIONS request, a `WebHook-Request-Origin`
header present with a non-empty value gets 200 with `WebHook-Allowed-Origin`
echoing it; a header that is absent, or present with the empty value, gets
400. -/
theorem options_handshake (req : HttpRequest) (h : req.method = "OPTIONS") :
    (∀ origin, req.headers.lookup "WebHook-Request-Origin" = some origin →
      origin ≠ "" →
      (blob_created_http_handler req).1 =
        { status_code := 200, headers := [("WebHook-Allowed-Origin", origin)] }) ∧
    (req.headers.lookup "WebHook-Request-Origin" = none →
      (blob_created_http_handler req).1 = { status_code := 400 }) ∧
    (req.headers.lookup "WebHook-Request-Origin" = some "" →
      (blob_created_http_handler req).1 = { status_code := 400 }) := by
  refine ⟨?_, ?_, ?_⟩
  · intro origin hor hne
    unfold blob_created_http_handler
    rw [h]
    simp [hor, hne]
  · intro hor
    unfold blob_created_http_handler
    rw [h]
    simp [hor]
  · intro hor
    unfold blob_created_http_handler
    rw [h]
    simp [hor]

/-- Claim C2 witness: the handshake succeeds for origin `https://example.com`
and fails 400 when the header is absent. -/
theorem options_handshake_witness :
    ((blob_created_http_handler
        ⟨"OPTIONS", [("WebHook-Request-Origin", "https://example.com")], .badJson⟩).1 =
      { status_code := 200,
        headers := [("WebHook-Allowed-Origin", "https://example.com")] }) ∧
    ((blob_created_http_handler ⟨"OPTIONS", [], .badJson⟩).1 =
      { status_code := 400 }) :=
  ⟨(options_handshake _ rfl).1 "https://example.com" (by decide) (by decide),
   (options_handshake _ rfl).2.1 (by decide)⟩

/-- Claim C3 counterexample: a POST whose body is absent, empty or not valid
JSON makes `req.get_json()` raise inside the inner `try`, so the handler
answers 500, not the 400 the claim states for malformed bodies. -/
theorem post_bad_body_cex :
    (blob_created_http_handler ⟨"POST", [], .badJson⟩).1.status_code = 500 ∧
    (blob_created_http_handler ⟨"POST", [], .badJson⟩).1.status_code ≠ 400 := by
  constructor
  · rfl
  · decide

/-- Claim C3 (amended): on the POST path, a body that is absent, empty or not
valid JSON raises in `req.get_json()` and is answered 500; a body that parses
to a falsy JSON value (such as `null`, `\x7b\x7d` or `[]`) is answered 400; once a
truthy body is obtained, a processing failure is answered 500 and success
200. -/
theorem post_status (req : HttpRequest) (h : req.method = "POST") :
    (req.body = .badJson →
      (blob_created_http_handler req).1.status_code = 500) ∧
    (∀ j, req.body = .parsed j → j.isTruthy = false →
      (blob_created_http_handler req).1.status_code = 400) ∧
    (∀ j e, req.body = .parsed j → j.isTruthy = true →
      (process_cloudevent_http j).2 = some e →
      (blob_created_http_handler req).1.status_code = 500) ∧
    (∀ j, req.body = .parsed j → j.isTruthy = true →
      (process_cloudevent_http j).2 = none →
      (blob_created_http_handler req).1.status_code = 200) := by
  have hm : (req.method == "OPTIONS") = false := by
    rw [h]; decide
  refine ⟨?_, ?_, ?_, ?_⟩
  · intro hb
    unfold blob_created_http_handler
    rw [hm, h, hb]
    simp
  · intro j hb htr
    unfold blob_created_http_handler
    rw [hm, h, hb]
    simp [htr]
  · intro j e hb htr herr
    unfold blob_created_http_handler
    rw [hm, h, hb]
    rcases hp : process_cloudevent_http j with ⟨tr, err⟩
    rw [hp] at herr
    simp at herr
    simp [htr, hp, herr]
  · intro j hb htr herr
    unfold blob_created_http_handler
    rw [hm, h, hb]
    rcases hp : process_cloudevent_http j with ⟨tr, err⟩
    rw [hp] at herr
    simp at herr
    simp [htr, hp, herr]

/-- Claim C3 witness: the three POST outcomes at concrete requests — bad body
is 500, a body parsing to `null` is 400, and a well-formed BlobCreated
envelope is 200. -/
theorem post_status_witness :
    ((blob_created_http_handler ⟨"POST", [], .badJson⟩).1.status_code = 500) ∧
    ((blob_created_http_handler ⟨"POST", [], .parsed .null⟩).1.status_code = 400) ∧
    ((blob_created_http_handler ⟨"POST", [],
        .parsed (.obj [("type", .str "Microsoft.Storage.BlobCreated"),
                       ("data", .obj [("contentType", .str "image/png")])])⟩).1.status_code
      = 200) :=
  ⟨(post_status _ rfl).1 rfl,
   (post_status _ rfl).2.1 _ rfl (by decide),
   (post_status _ rfl).2.2.2 _ rfl (by decide) (by rfl)⟩

/-- Claim C4 counterexample: on the push-trigger path the event type is never
branched on — a push event whose type is `Other.Type` (with truthy data) still
runs the extractor and a stub, contradicting the claim that the pipeline runs
only for `Microsoft.Storage.BlobCreated`. -/
theorem push_type_ignored_cex :
    (EventGridEvent.mk "id1" "/src" "sub" "Other.Type" "2024-01-01T00:00:00Z"
        (.obj [("contentType", .str "image/png")])).event_type ≠
      "Microsoft.Storage.BlobCreated" ∧
    blob_created_handler
      (EventGridEvent.mk "id1" "/src" "sub" "Other.Type" "2024-01-01T00:00:00Z"
        (.obj [("contentType", .str "image/png")])) =
      ([.extractorCall, .stub .image], none) := by
  constructor
  · decide
  · rfl

/-- Claim C4 (amended): the exact-match type gate exists only on the HTTP POST
path — `process_cloudevent_http` runs the pipeline (and the extractor exactly
once) iff the envelope type value equals `Microsoft.Storage.BlobCreated`, and
otherwise only logs, returning normally — while the push-trigger handler runs
the pipeline iff its payload is truthy, regardless of the event type. -/
theorem pipeline_type_gate (kvs : List (String × Json)) (ev : EventGridEvent) :
    (process_cloudevent_http (.obj kvs) =
      if (dictGet kvs "type" (.str "")).eqStr "Microsoft.Storage.BlobCreated" then
        run_pipeline (dictGet kvs "data" (.obj []))
      else ([], none)) ∧
    ((process_cloudevent_http (.obj kvs)).1.count TraceItem.extractorCall =
      if (dictGet kvs "type" (.str "")).eqStr "Microsoft.Storage.BlobCreated" then 1
      else 0) ∧
    (blob_created_handler ev =
      if ev.data.isTruthy then run_pipeline ev.data else ([], none)) ∧
    ((blob_created_handler ev).1.count TraceItem.extractorCall =
      if ev.data.isTruthy then 1 else 0) := by
  have h1 : process_cloudevent_http (.obj kvs) =
      if (dictGet kvs "type" (.str "")).eqStr "Microsoft.Storage.BlobCreated" then
        run_pipeline (dictGet kvs "data" (.obj []))
      else ([], none) := rfl
  have h3 : blob_created_handler ev =
      if ev.data.isTruthy then run_pipeline ev.data else ([], none) := rfl
  refine ⟨h1, ?_, h3, ?_⟩
  · rw [h1]
    by_cases hty :
        (dictGet kvs "type" (.str "")).eqStr "Microsoft.Storage.BlobCreated" = true
    · simp [hty, run_pipeline_count]
    · simp only [Bool.not_eq_true] at hty
      simp [hty]
  · rw [h3]
    by_cases htr : ev.data.isTruthy = true
    · simp [htr, run_pipeline_count]
    · simp only [Bool.not_eq_true] at htr
      simp [htr]

/-- The split of `extract_blob_info` never produces the empty list of parts
(like the Python `str.split`). -/
theorem splitChars_ne_nil (sep : Char) (cs : List Char) : splitChars sep cs ≠ [] := by
  cases cs with
  | nil => simp [splitChars]
  | cons c cs' =>
    unfold splitChars
    by_cases h : (c == sep) = true
    · simp [h]
    · simp only [h]
      simp
      cases splitChars sep cs' <;> simp

/-- Claim C5 counterexample: a truthy url with a single `/`-separated segment
does not give empty derived fields with the other fields kept — the `[-2]`
index raises and `extract_blob_info` returns the empty struct, dropping `api`
and every other field. -/
theorem extract_single_segment_cex :
    (pySplit "abc" '/').length < 2 ∧
    extract_blob_info (.obj [("url", Json.str "abc"), ("api", Json.str "PutBlob")]) =
      none := by
  constructor
  · decide
  · rfl

/-- Claim C5 (amended): when the url value is falsy (absent, empty string, or
another falsy value) the extractor returns the struct with `blob_name` and
`container_name` left unset — absent keys, not empty strings — and the other
fields taken from the payload unchanged; when the url is a truthy string whose
split on `/` has fewer than two segments, the whole extraction fails and the
empty struct is returned. -/
theorem extract_url_fallback (kvs : List (String × Json)) :
    ((dictGet kvs "url" (Json.str "")).isTruthy = false →
      ∃ bi, extract_blob_info (.obj kvs) = some bi ∧
        bi.blob_name = none ∧ bi.container_name = none ∧
        bi.url = dictGet kvs "url" (Json.str "") ∧
        bi.api = dictGet kvs "api" (Json.str "") ∧
        bi.content_type = dictGet kvs "contentType" (Json.str "") ∧
        bi.content_length = dictGet kvs "contentLength" (Json.num 0)) ∧
    (∀ s, dictGet kvs "url" (Json.str "") = Json.str s →
      (Json.str s).isTruthy = true →
      (pySplit s '/').length < 2 →
      extract_blob_info (.obj kvs) = none) := by
  constructor
  · intro h
    refine ⟨{ url := dictGet kvs "url" (.str "")
              api := dictGet kvs "api" (.str "")
              client_request_id := dictGet kvs "clientRequestId" (.str "")
              request_id := dictGet kvs "requestId" (.str "")
              etag := dictGet kvs "eTag" (.str "")
              content_type := dictGet kvs "contentType" (.str "")
              content_length := dictGet kvs "contentLength" (.num 0)
              blob_type := dictGet kvs "blobType" (.str "")
              sequencer := dictGet kvs "sequencer" (.str "")
              blob_name := none
              container_name := none }, ?_, rfl, rfl, rfl, rfl, rfl, rfl⟩
    unfold extract_blob_info
    simp [h]
  · intro s hs htr hlen
    have hne : pySplit s '/' ≠ [] := by
      unfold pySplit
      intro hc
      exact splitChars_ne_nil '/' s.data (List.map_eq_nil_iff.mp hc)
    have hpos : 0 < (pySplit s '/').length := List.length_pos.mpr hne
    have h1 : (pySplit s '/').length = 1 := by omega
    obtain ⟨a, ha⟩ := List.length_eq_one.mp h1
    simp only [extract_blob_info]
    rw [hs]
    rw [htr]
    simp [ha]

/-- Claim C5 witness: a payload with no url key keeps its `api` value and has
both derived keys unset, and the url `abc` (one segment) empties the struct. -/
theorem extract_url_fallback_witness :
    ((dictGet [("api", Json.str "PutBlob")] "url" (Json.str "")).isTruthy = false) ∧
    (∃ bi, extract_blob_info (.obj [("api", Json.str "PutBlob")]) = some bi ∧
      bi.blob_name = none ∧ bi.container_name = none ∧
      bi.url = dictGet [("api", Json.str "PutBlob")] "url" (Json.str "") ∧
      bi.api = dictGet [("api", Json.str "PutBlob")] "api" (Json.str "") ∧
      bi.content_type = dictGet [("api", Json.str "PutBlob")] "contentType" (Json.str "") ∧
      bi.content_length = dictGet [("api", Json.str "PutBlob")] "contentLength" (Json.num 0)) ∧
    extract_blob_info (.obj [("url", Json.str "abc")]) = none :=
  ⟨by decide,
   (extract_url_fallback _).1 (by decide),
   (extract_url_fallback _).2 "abc" (by rfl) (by decide) (by decide)⟩

/-- Claim C6 counterexample: a non-numeric `contentLength` is neither coerced
nor treated as a failure — the extractor stores the string verbatim and the
struct is not emptied. -/
theorem content_length_not_coerced_cex :
    (extract_blob_info (.obj [("contentLength", Json.str "many")])).map
      (fun bi => bi.content_length) = some (Json.str "many") := by
  rfl

/-- Claim C6 (amended): the `content_length` field is the raw payload value
under `contentLength`, whatever its JSON type — negative numbers and
non-numeric values pass through unchanged — and the `0` default applies only
when the key is absent; no coercion and no locally caught failure exist. -/
theorem content_length_verbatim (kvs : List (String × Json)) (bi : BlobInfo)
    (h : extract_blob_info (.obj kvs) = some bi) :
    bi.content_length = dictGet kvs "contentLength" (.num 0) := by
  simp only [extract_blob_info] at h
  split at h
  · split at h
    · split at h
      · injection h with h
        subst h
        rfl
      · exact absurd h (by simp)
    · exact absurd h (by simp)
  · injection h with h
    subst h
    rfl

/-- Claim C6 witness: with `contentLength` stored as the string `many`, the
extracted `content_length` equals that raw value. -/
theorem content_length_verbatim_witness :
    ∃ bi, extract_blob_info (.obj [("contentLength", Json.str "many")]) = some bi ∧
      bi.content_length =
        dictGet [("contentLength", Json.str "many")] "contentLength" (.num 0) :=
  ⟨_, rfl, content_length_verbatim _ _ rfl⟩

/-- Claim C7 counterexample: a non-string `type` value is not defaulted to the
empty string — the number 5 passes through the envelope extraction as is. -/
theorem envelope_type_not_defaulted_cex :
    ∃ env, parse_envelope (.obj [("type", Json.num 5)]) = .ok env ∧
      env.event_type = Json.num 5 ∧ env.event_type ≠ Json.str "" :=
  ⟨_, rfl, rfl, fun hcon => Json.noConfusion hcon⟩

/-- Claim C7 (amended): for a JSON object the envelope extraction never fails,
and each field is exactly the payload value under its key whenever that key is
present, whatever the JSON type of the value; the defaults — empty string for
id, source, type, time and subject, `1.0` for specversion, the empty object
for data — apply only when the key is absent. -/
theorem parse_envelope_fields (kvs : List (String × Json)) :
    ∃ env, parse_envelope (.obj kvs) = .ok env ∧
      env.event_id = dictGet kvs "id" (.str "") ∧
      env.source = dictGet kvs "source" (.str "") ∧
      env.event_type = dictGet kvs "type" (.str "") ∧
      env.spec_version = dictGet kvs "specversion" (.str "1.0") ∧
      env.time = dictGet kvs "time" (.str "") ∧
      env.subject = dictGet kvs "subject" (.str "") ∧
      env.data = dictGet kvs "data" (.obj []) :=
  ⟨_, rfl, rfl, rfl, rfl, rfl, rfl, rfl, rfl⟩

/-- A string starting with `text/` cannot also start with `image/`: the first
characters differ. -/
theorem sw_text_not_image (ct : String) (h : pyStartsWith ct "text/" = true) :
    pyStartsWith ct "image/" = false := by
  unfold pyStartsWith at h ⊢
  have ht : "text/".data = ['t', 'e', 'x', 't', '/'] := rfl
  have hi : "image/".data = ['i', 'm', 'a', 'g', 'e', '/'] := rfl
  rw [ht] at h
  rw [hi]
  cases hd : ct.data with
  | nil =>
    rw [hd] at h
    simp [swChars] at h
  | cons c cs =>
    rw [hd] at h
    unfold swChars at h
    have hc : c = 't' := by
      have hand := (Bool.and_eq_true _ _).mp h
      exact eq_of_beq hand.1
    unfold swChars
    rw [hc]
    have hti : (('t' : Char) == 'i') = false := by decide
    rw [hti, Bool.false_and]

/-- Claim C8: the Dispatch Router calls exactly one stub (`process_blob_created`
invokes the singleton `[dispatch ct]`), chosen case-sensitively first-match: an
`image/` prefix gives the image stub, a `text/` prefix the text stub, the exact
string `application/json` the json stub, and everything else — the empty
string included — the generic stub. -/
theorem dispatch_first_match (bi : Option BlobInfo) (ct : String)
    (hct : blobInfoContentType bi = .str ct) :
    process_blob_created bi = .ok [dispatch ct] ∧
    (pyStartsWith ct "image/" = true → dispatch ct = .image) ∧
    (pyStartsWith ct "text/" = true → dispatch ct = .text) ∧
    (ct = "application/json" → dispatch ct = .json) ∧
    (pyStartsWith ct "image/" = false → pyStartsWith ct "text/" = false →
      ct ≠ "application/json" → dispatch ct = .generic) := by
  refine ⟨?_, ?_, ?_, ?_, ?_⟩
  · unfold process_blob_created
    rw [hct]
  · intro h
    unfold dispatch
    simp [h]
  · intro h
    have hni := sw_text_not_image ct h
    unfold dispatch
    simp [h, hni]
  · intro h
    subst h
    decide
  · intro h1 h2 h3
    unfold dispatch
    simp [h1, h2, h3]

/-- Claim C8 witness: content type `image/png` makes the pipeline call exactly
the image stub. -/
theorem dispatch_first_match_witness :
    process_blob_created
        (extract_blob_info (.obj [("contentType", Json.str "image/png")])) =
      .ok [dispatch "image/png"] ∧
    dispatch "image/png" = Stub.image := by
  have T := dispatch_first_match
    (extract_blob_info (.obj [("contentType", Json.str "image/png")]))
    "image/png" (by rfl)
  exact ⟨T.1, T.2.1 (by decide)⟩
